import Mathlib

/-!
Shallow embedding of the surf-ai-bun repository's core report-generation
logic, together with theorems settling the frozen claims C1-C10.

The embedding follows the source files:
  * `index.ts`          - the enhanced pipeline (`generateDetailedSurfReport`,
                          `createEnhancedFallbackReport`, `getWindDirectionText`,
                          `getWaveQuality`, `getBoardTypeRecommendation`).
  * `src/server.ts`     - the Hono variant's report assembly (no fallback tier;
                          optional fields passed through).
  * `test-port.ts`      - the "pure bun" variant's cron handler
                          (length validation, secondary AI attempt, defaults).

Conventions of the embedding:
  * JS numbers are modelled as `ℚ` (the source only adds, multiplies,
    divides by constants and compares, all exact on the inputs of interest);
    `Math.round x` is `⌊x + 1/2⌋` (half-up), JS `%` on integers is `Int.tmod`
    (remainder with the sign of the dividend).
  * Template-literal interpolation of a number is `jsNumToString`
    (decimal rendering for integers and one-decimal rationals, which covers
    every value the claims evaluate).
  * The external text-generation call (`generateObject` of the `ai` package)
    is an oracle parameter: the outside world either fails (network error,
    timeout, provider-side schema rejection) or hands back a candidate
    object; the zod schema bounds of the source are an explicit predicate.
  * Clock reads (`Date.now()` / `new Date()`) are parameters: one per read
    site, in source order, as integer milliseconds.
  * JS `||` defaulting is modelled with the actual truthiness rules the
    source relies on: `undefined` is falsy, the empty string is falsy,
    every array (even an empty one) is truthy.
-/

namespace SurfAI

/-- Embedding of JavaScript `Math.round`: round half-up, `⌊x + 1/2⌋`. -/
def jsRound (q : ℚ) : ℤ := ⌊q + 1/2⌋

/-- Rendering of a JS number into a template literal, faithful for
nonnegative integers and for nonnegative rationals with exactly one decimal
digit (all values interpolated at the claims' inputs: 3.5, 9, 1.2, 74, ...). -/
def jsNumToString (q : ℚ) : String :=
  if q.den = 1 then toString q.num
  else if 10 % q.den = 0 ∧ 0 ≤ q.num then
    toString (Int.ediv q.num q.den) ++ "."
      ++ toString (Int.ediv (q.num * 10) q.den - Int.ediv q.num q.den * 10)
  else toString q.num ++ "/" ++ toString q.den

/-- Embedding of JS `String.prototype.toLowerCase` (character-wise lowering
suffices for the source's inputs, e.g. `"Rising"`). -/
def strToLower (s : String) : String := String.mk (s.data.map Char.toLower)

/-- Embedding of "the report text ends with ...". -/
def strEndsWith (s pat : String) : Bool := pat.data.isSuffixOf s.data

/-- JS `maybeString || default`: `undefined` and the empty string are falsy. -/
def jsOrString (v : Option String) (d : String) : String :=
  match v with
  | none => d
  | some s => if s.isEmpty then d else s

/-- JS `maybeArray || default`: only `undefined` is falsy (arrays are always
truthy, even empty ones). -/
def jsOrList (v : Option (List String)) (d : List String) : List String :=
  v.getD d

/-- Substring test on character lists (used to state "the report mentions ..."). -/
def containsSub : List Char → List Char → Bool
  | pat, [] => pat.isEmpty
  | pat, c :: t => pat.isPrefixOf (c :: t) || containsSub pat t

/-- Substring test on strings. -/
def strContains (s pat : String) : Bool := containsSub pat.data s.data

/-- Number of (possibly overlapping) occurrences of a pattern in a list. -/
def countOcc : List Char → List Char → ℕ
  | _, [] => 0
  | pat, c :: t => (if pat.isPrefixOf (c :: t) then 1 else 0) + countOcc pat t

/-- Number of occurrences of a pattern in a string. -/
def strCountOcc (s pat : String) : ℕ := countOcc pat.data s.data

/-- Weather block of the inbound surf-data payload (`surfData.weather`). -/
structure SurfWeather where
  weather_description : String
  air_temperature_c : ℚ
  air_temperature_f : ℚ
  water_temperature_c : ℚ
  water_temperature_f : ℚ

/-- Detail block of the inbound surf-data payload (`surfData.details`).
The compass/text/description fields are produced upstream and may be absent
(`Option`), which the fallback text guards with `||` defaults. -/
structure SurfDetails where
  wave_height_ft : ℚ
  wave_period_sec : ℚ
  swell_direction_deg : ℚ
  swell_direction_compass : Option String
  swell_direction_text : Option String
  swell_direction_description : Option String
  wind_speed_kts : ℚ
  wind_direction_deg : ℚ
  wind_direction_compass : Option String
  wind_direction_text : Option String
  wind_direction_description : Option String
  tide_state : String
  tide_height_ft : ℚ

/-- The inbound surf-conditions payload (`surfData`). -/
structure SurfData where
  location : String
  details : SurfDetails
  weather : SurfWeather
  score : ℚ

/-- Embedding of `index.ts` line 42 / 233: `Math.round(surfData.details.wind_speed_kts * 1.15078)`.
The spec names this converter `knotsToMph`. -/
def knotsToMph (k : ℚ) : ℤ := jsRound (k * 1.15078)

/-- The ordered 16-label compass list of `getWindDirectionText` (`index.ts` 126-127). -/
def compassLabels : List String :=
  ["North", "NNE", "NE", "ENE", "East", "ESE", "SE", "SSE",
   "South", "SSW", "SW", "WSW", "West", "WNW", "NW", "NNW"]

/-- Index computation of `getWindDirectionText` (`index.ts` 128):
`Math.round(degrees / 22.5) % 16`, with JS `%` as `Int.tmod`. -/
def windDirIndex (degrees : ℚ) : ℤ := (jsRound (degrees / 22.5)).tmod 16

/-- Embedding of `getWindDirectionText` (`index.ts` 125-130).  For a negative index (only
possible for negative input degrees) JS reads `directions[negative]`, which is
`undefined`; that out-of-range read is rendered as `"undefined"` here. -/
def getWindDirectionText (degrees : ℚ) : String :=
  if windDirIndex degrees < 0 then "undefined"
  else compassLabels.getD (windDirIndex degrees).toNat "undefined"

/-- Embedding of `getWaveQuality` (`index.ts` 132-137).  The `height` parameter is declared
by the source but unused by its body. -/
def getWaveQuality (height period : ℚ) : String :=
  if period ≥ 12 then "This is quality groundswell with good power and long rides."
  else if period ≥ 8 then "Decent swell with moderate power and rideable waves."
  else if period ≥ 6 then "Short period wind swell - waves will be quick and choppy."
  else "Very short period - expect weak, mushy waves."

/-- Embedding of `getBoardTypeRecommendation` (`index.ts` 236-244, declared inside the
catch block of `generateDetailedSurfReport`). -/
def getBoardTypeRecommendation (waveHeight : ℚ) : String :=
  if waveHeight ≥ 4 then "Shortboard recommended"
  else if waveHeight ≥ 2.5 then "Shortboard or funboard"
  else "Longboard recommended"

/-- First (shadowed) definition of `createEnhancedFallbackReport`
(`index.ts` 91-115).  JavaScript hoists function declarations and the later
declaration of the same name wins, so this version is never the one called;
it is kept here because claim C2 cites it. -/
def createEnhancedFallbackReport_v1 (surfData : SurfData) (windMph : ℤ) : String :=
  let condition := if surfData.score ≥ 70 then "good"
    else if surfData.score ≥ 50 then "fair" else "poor"
  let waveDesc := if surfData.details.wave_height_ft ≥ 4 then "solid"
    else if surfData.details.wave_height_ft ≥ 2 then "fun-sized" else "small"
  let swellCompass := jsOrString surfData.details.swell_direction_compass "unknown direction"
  let windCompass := jsOrString surfData.details.wind_direction_compass "variable"
  let boardRec :=
    if surfData.details.wave_height_ft ≥ 4 then
      "Grab your shortboard for better maneuverability in these bigger waves"
    else if surfData.details.wave_height_ft ≥ 2.5 then
      "A shortboard or funboard will work well for these conditions"
    else
      "Perfect longboard conditions - the extra length will help you catch these smaller waves"
  let paragraph1 :=
    "St. Augustine surf check shows " ++ waveDesc ++ " "
      ++ jsNumToString surfData.details.wave_height_ft ++ "ft waves at "
      ++ jsNumToString surfData.details.wave_period_sec
      ++ " seconds coming from the " ++ swellCompass ++ ", delivering "
      ++ (if surfData.details.wave_period_sec ≥ 10 then
            "decent power with some nice long rides"
          else "quicker, choppier waves with less power")
      ++ ". Wind is " ++ toString windMph ++ " mph from the " ++ windCompass
      ++ " which "
      ++ (if windMph < 10 then "is light enough for clean, glassy conditions"
          else "is creating some texture and bump on the water")
      ++ ". Tide is " ++ strToLower surfData.details.tide_state ++ " at "
      ++ jsNumToString surfData.details.tide_height_ft
      ++ "ft and water temp is "
      ++ jsNumToString surfData.weather.water_temperature_f ++ "°F."
  let paragraph2 :=
    boardRec ++ " and head to "
      ++ (if surfData.details.wave_height_ft ≥ 3 then
            "Vilano Beach or the pier area where the waves should have some punch"
          else "Vilano Beach or Crescent Beach for the mellow, rolling waves")
      ++ ". "
      ++ (if surfData.weather.water_temperature_f < 65 then
            "You\x27ll want a wetsuit for that chilly water"
          else "Spring suit or boardshorts should be perfect for the comfortable water temps")
      ++ ". "
      ++ (if condition = "good" then "Definitely worth the paddle out today!"
          else if condition = "fair" then "Surfable conditions if you need your wave fix."
          else "Might be better for beach walks, but conditions can change quickly.")
  paragraph1 ++ "\n\n" ++ paragraph2

/-- Second definition of `createEnhancedFallbackReport` (`index.ts` 300-314).
By JS function hoisting this later declaration shadows the first one, so this
is the fallback text builder actually invoked by `generateDetailedSurfReport`. -/
def createEnhancedFallbackReport (surfData : SurfData) (windMph : ℤ) : String :=
  let condition := if surfData.score ≥ 70 then "good"
    else if surfData.score ≥ 50 then "fair" else "poor"
  let waveDesc := if surfData.details.wave_height_ft ≥ 4 then "solid"
    else if surfData.details.wave_height_ft ≥ 2 then "fun-sized" else "small"
  let swellCompass := jsOrString surfData.details.swell_direction_compass "unknown direction"
  let windCompass := jsOrString surfData.details.wind_direction_compass "variable"
  let paragraph1 :=
    "St. Augustine surf check shows " ++ waveDesc ++ " "
      ++ jsNumToString surfData.details.wave_height_ft ++ "ft waves at "
      ++ jsNumToString surfData.details.wave_period_sec
      ++ " seconds coming from the " ++ swellCompass ++ ", delivering "
      ++ (if surfData.details.wave_period_sec ≥ 10 then
            "decent power with some nice long rides"
          else "quicker, choppier waves with less power")
      ++ ". Wind is " ++ toString windMph ++ " mph from the " ++ windCompass
      ++ " which "
      ++ (if windMph < 10 then "is light enough for clean, glassy conditions"
          else "is creating some texture and bump on the water")
      ++ ". Tide is " ++ strToLower surfData.details.tide_state ++ " at "
      ++ jsNumToString surfData.details.tide_height_ft
      ++ "ft and water temp is "
      ++ jsNumToString surfData.weather.water_temperature_f ++ "°F."
  let paragraph2 :=
    (if surfData.details.wave_height_ft ≥ 3 then
       "Grab your shortboard and head to Vilano Beach or the pier area where the waves should have some punch"
     else
       "Perfect longboard day - try Vilano Beach or Crescent Beach for the mellow, rolling waves")
      ++ ". "
      ++ (if surfData.weather.water_temperature_f < 65 then
            "You\x27ll want a 3/2mm wetsuit for that chilly water"
          else "Spring suit or boardshorts should be perfect for the comfortable water temps")
      ++ ". "
      ++ (if condition = "good" then "Definitely worth the paddle out today!"
          else if condition = "fair" then "Surfable conditions if you need your wave fix."
          else "Might be better for beach walks, but conditions can change quickly.")
  paragraph1 ++ "\n\n" ++ paragraph2

/-- Structured recommendations block of the zod schema `surfReportSchema`
(`index.ts` 12-18 / 81-87). Skill levels are the zod enum strings. -/
structure AIRecs where
  boardType : String
  wetsuitThickness : Option String
  skillLevel : String
  bestSpots : List String
  timingAdvice : String

/-- A candidate object produced by the external generator against
`surfReportSchema` (`index.ts` 7-19 / 76-88). -/
structure AIResponse where
  conditionsAnalysis : String
  recommendationsAndOutlook : String
  recommendations : AIRecs

/-- Outcome of one external `generateObject` call: either the call fails
outright (network error, timeout, provider failure) or the provider hands
back a candidate object, which is then held to the zod schema bounds. -/
inductive GenOutcome where
  | failure : GenOutcome
  | output : AIResponse → GenOutcome

/-- The zod bounds of `surfReportSchema` (`index.ts` 76-88):
`conditionsAnalysis` at least 120 characters, `recommendationsAndOutlook` at
least 100, `skillLevel` one of the three enum values, `bestSpots` at least 2
entries. -/
def schemaAccepts (ai : AIResponse) : Bool :=
  decide (120 ≤ ai.conditionsAnalysis.length)
    && decide (100 ≤ ai.recommendationsAndOutlook.length)
    && (ai.recommendations.skillLevel == "beginner"
        || ai.recommendations.skillLevel == "intermediate"
        || ai.recommendations.skillLevel == "advanced")
    && decide (2 ≤ ai.recommendations.bestSpots.length)

/-- Result of `generateObject` as seen by `generateDetailedSurfReport`:
`none` means the call threw (which includes the provider's own schema
enforcement rejecting an out-of-bounds candidate). -/
def generateObjectResult : GenOutcome → Option AIResponse
  | .failure => none
  | .output ai => if schemaAccepts ai then some ai else none

/-- One clock value per `Date.now()` / `new Date()` read site of the report
assembly, in source order: the `id` field, the `timestamp` field, and the
`cached_until` field each call the clock separately. -/
structure Clocks where
  tId : ℤ
  tTs : ℤ
  tCu : ℤ

/-- The denormalized copy of the input conditions embedded in every report
(`index.ts` 175-200 and 251-276; both paths copy the same fields). -/
structure ReportConditions where
  wave_height_ft : ℚ
  wave_period_sec : ℚ
  wind_speed_kts : ℚ
  wind_direction_deg : ℚ
  tide_state : String
  weather_description : String
  surfability_score : ℚ
  swell_direction_deg : ℚ
  swell_direction_compass : Option String
  swell_direction_text : Option String
  swell_direction_description : Option String
  wind_direction_compass : Option String
  wind_direction_text : Option String
  wind_direction_description : Option String
  tide_height_ft : ℚ
  water_temperature_c : ℚ
  water_temperature_f : ℚ
  air_temperature_c : ℚ
  air_temperature_f : ℚ

/-- Recommendations block of the assembled report (`index.ts` 201-207 and
277-284). In `index.ts` every field is populated on both paths. -/
structure ReportRecommendations where
  board_type : String
  wetsuit_thickness : Option String
  skill_level : String
  best_spots : List String
  timing_advice : String

/-- Generation metadata of the assembled report (`index.ts` 209-217 and
286-294). -/
structure GenerationMeta where
  backend : String
  model : String
  report_length : ℕ
  word_count : ℕ
  paragraphs : ℕ
  prompt_version : String
  includes_compass_data : Bool

/-- The assembled SurfReport of `index.ts` (`generateDetailedSurfReport`'s
return value on either path). Timestamps are integer milliseconds. -/
structure SurfReport where
  id : String
  timestamp : ℤ
  location : String
  report : String
  conditions : ReportConditions
  recommendations : ReportRecommendations
  cached_until : ℤ
  generation_meta : GenerationMeta

/-- Field-by-field copy of the inbound conditions performed identically by
both assembly paths of `index.ts`. -/
def copyConditions (surfData : SurfData) : ReportConditions :=
  { wave_height_ft := surfData.details.wave_height_ft
    wave_period_sec := surfData.details.wave_period_sec
    wind_speed_kts := surfData.details.wind_speed_kts
    wind_direction_deg := surfData.details.wind_direction_deg
    tide_state := surfData.details.tide_state
    weather_description := surfData.weather.weather_description
    surfability_score := surfData.score
    swell_direction_deg := surfData.details.swell_direction_deg
    swell_direction_compass := surfData.details.swell_direction_compass
    swell_direction_text := surfData.details.swell_direction_text
    swell_direction_description := surfData.details.swell_direction_description
    wind_direction_compass := surfData.details.wind_direction_compass
    wind_direction_text := surfData.details.wind_direction_text
    wind_direction_description := surfData.details.wind_direction_description
    tide_height_ft := surfData.details.tide_height_ft
    water_temperature_c := surfData.weather.water_temperature_c
    water_temperature_f := surfData.weather.water_temperature_f
    air_temperature_c := surfData.weather.air_temperature_c
    air_temperature_f := surfData.weather.air_temperature_f }

/-- Embedding of `generateDetailedSurfReport` (`index.ts` 148-297).  The whole body sits in
a try/catch: if the external call succeeds and the candidate passes the zod
schema, the primary report is assembled (lines 162-227); on any generator
error the catch block assembles the fallback report from
`createEnhancedFallbackReport` (lines 229-296).  `rand` stands for the
`Math.random().toString(36).substr(2, 4)` suffix. -/
def generateDetailedSurfReport (surfData : SurfData) (gen : GenOutcome)
    (clk : Clocks) (rand : String) : SurfReport :=
  match generateObjectResult gen with
  | some ai =>
    let fullReport := ai.conditionsAnalysis ++ "\n\n" ++ ai.recommendationsAndOutlook
    { id := "surf_2para_" ++ toString clk.tId ++ "_" ++ rand
      timestamp := clk.tTs
      location := surfData.location
      report := fullReport
      conditions := copyConditions surfData
      recommendations :=
        { board_type := ai.recommendations.boardType
          wetsuit_thickness := ai.recommendations.wetsuitThickness
          skill_level := ai.recommendations.skillLevel
          best_spots := ai.recommendations.bestSpots
          timing_advice := ai.recommendations.timingAdvice }
      cached_until := clk.tCu + 4 * 60 * 60 * 1000
      generation_meta :=
        { backend := "bun-enhanced-with-compass"
          model := "gpt-4o-mini"
          report_length := fullReport.length
          word_count := (fullReport.splitOn " ").length
          paragraphs := 2
          prompt_version := "2.2"
          includes_compass_data := true } }
  | none =>
    let windMph := jsRound (surfData.details.wind_speed_kts * 1.15078)
    let fallbackReport := createEnhancedFallbackReport surfData windMph
    { id := "surf_fallback_enhanced_" ++ toString clk.tId ++ "_" ++ rand
      timestamp := clk.tTs
      location := surfData.location
      report := fallbackReport
      conditions := copyConditions surfData
      recommendations :=
        { board_type := getBoardTypeRecommendation surfData.details.wave_height_ft
          wetsuit_thickness :=
            some (if surfData.weather.water_temperature_f < 65 then "3/2mm" else "Spring suit")
          skill_level := if surfData.score ≥ 65 then "intermediate" else "beginner"
          best_spots := ["Vilano Beach", "St. Augustine Pier", "Crescent Beach"]
          timing_advice := "Check conditions regularly as they change throughout the day" }
      cached_until := clk.tCu + 4 * 60 * 60 * 1000
      generation_meta :=
        { backend := "bun-enhanced-fallback"
          model := "hardcoded-with-compass"
          report_length := fallbackReport.length
          word_count := (fallbackReport.splitOn " ").length
          paragraphs := 2
          prompt_version := "2.2"
          includes_compass_data := true } }

/-- A generator answer against the Hono variant's schema (`src/server.ts`
16-22): `bestSpots` and `timingAdvice` are optional there.  The same shape is
produced by the pure-bun variant's schema (`test-port.ts` 15-34). -/
structure OptAIResponse where
  report : String
  boardRecommendation : String
  skillLevel : String
  bestSpots : Option (List String)
  timingAdvice : Option String

/-- Recommendations block with optional members, as assembled by the Hono
variant (`src/server.ts` 87-92): omitted generator fields are passed through
unchanged, with no default. -/
structure HonoRecommendations where
  board_type : String
  skill_level : String
  best_spots : Option (List String)
  timing_advice : Option String

/-- Report-recommendations assembly of `src/server.ts` (lines 87-92). -/
def serverRecommendations (ai : OptAIResponse) : HonoRecommendations :=
  { board_type := ai.boardRecommendation
    skill_level := ai.skillLevel
    best_spots := ai.bestSpots
    timing_advice := ai.timingAdvice }

/-- Recommendations assembly of the pure-bun cron handler's primary tier
(`test-port.ts` 431-436): `aiResponse.bestSpots || [...]` and
`aiResponse.timingAdvice || '...'`. -/
def tpCronPrimaryRecommendations (ai : OptAIResponse) : ReportRecommendations :=
  { board_type := ai.boardRecommendation
    wetsuit_thickness := none
    skill_level := ai.skillLevel
    best_spots := jsOrList ai.bestSpots ["Vilano Beach", "St. Augustine Pier"]
    timing_advice := jsOrString ai.timingAdvice "Check conditions throughout the day" }

/-- Recommendations assembly of the pure-bun cron handler's secondary
(AI-retry) tier (`test-port.ts` 490-495). -/
def tpCronFallbackRecommendations (ai : OptAIResponse) : ReportRecommendations :=
  { board_type := ai.boardRecommendation
    wetsuit_thickness := none
    skill_level := ai.skillLevel
    best_spots := jsOrList ai.bestSpots ["Vilano Beach", "St. Augustine Pier"]
    timing_advice := jsOrString ai.timingAdvice "Check conditions regularly" }

/-- Band structure that §4.1 of the spec ascribes to the swell-quality
converter (thresholds 12 / 10 / 7, top-down, inclusive lower bounds), stated
over the labels the code actually owns, for comparison with `getWaveQuality`. -/
def swellQualitySpecBands (period : ℚ) : String :=
  if period ≥ 12 then "This is quality groundswell with good power and long rides."
  else if period ≥ 10 then "Decent swell with moderate power and rideable waves."
  else if period ≥ 7 then "Short period wind swell - waves will be quick and choppy."
  else "Very short period - expect weak, mushy waves."

/-- A generic well-formed conditions payload used to instantiate hypotheses
at concrete inputs. -/
def sampleData : SurfData :=
  { location := "St. Augustine, FL"
    details :=
      { wave_height_ft := 3
        wave_period_sec := 9
        swell_direction_deg := 90
        swell_direction_compass := some "East"
        swell_direction_text := some "East"
        swell_direction_description := some "east swell"
        wind_speed_kts := 10
        wind_direction_deg := 120
        wind_direction_compass := some "ESE"
        wind_direction_text := some "ESE"
        wind_direction_description := some "onshore"
        tide_state := "Falling"
        tide_height_ft := 2 }
    weather :=
      { weather_description := "Cloudy"
        air_temperature_c := 20
        air_temperature_f := 68
        water_temperature_c := 22
        water_temperature_f := 71 }
    score := 55 }

/-- The fixed conditions of claim C2: wave 3.5 ft, period 9 s, wind 8 kts
from 90°, tide Rising at 1.2 ft, water 74 °F, score 72 (`mkRat 7 2 = 3.5`,
`mkRat 6 5 = 1.2`, written with `mkRat` so that the kernel can evaluate). -/
def c2Data : SurfData :=
  { location := "St. Augustine, FL"
    details :=
      { wave_height_ft := mkRat 7 2
        wave_period_sec := 9
        swell_direction_deg := 90
        swell_direction_compass := none
        swell_direction_text := none
        swell_direction_description := none
        wind_speed_kts := 8
        wind_direction_deg := 90
        wind_direction_compass := none
        wind_direction_text := none
        wind_direction_description := none
        tide_state := "Rising"
        tide_height_ft := mkRat 6 5 }
    weather :=
      { weather_description := "Sunny"
        air_temperature_c := 27
        air_temperature_f := 80
        water_temperature_c := mkRat 233 10
        water_temperature_f := 74 }
    score := 72 }

/-- A generator answer that omits both optional fields (`bestSpots` and
`timingAdvice` absent), used to instantiate the omission hypotheses. -/
def omittedAI : OptAIResponse :=
  { report := "Clean lines out there this morning with fun waist high sets rolling through on the incoming tide."
    boardRecommendation := "longboard"
    skillLevel := "beginner"
    bestSpots := none
    timingAdvice := none }

/-- A generator candidate whose first paragraph is far below the 120-char
schema minimum. -/
def shortAI : AIResponse :=
  { conditionsAnalysis := "Waves are small."
    recommendationsAndOutlook := "Maybe grab a longboard and enjoy the sunshine while you wait for the next swell to arrive later this week."
    recommendations :=
      { boardType := "longboard"
        wetsuitThickness := none
        skillLevel := "beginner"
        bestSpots := ["Vilano Beach", "Crescent Beach"]
        timingAdvice := "Go early." } }

/-- Claim C4: for every wave height h ≥ 0 the fallback board-category
recommendation is the longboard category on [0, 2.5), the
shortboard-or-funboard category on [2.5, 4), and the shortboard category on
[4, ∞), exactly as `getBoardTypeRecommendation` computes it. -/
theorem C4_board_category_bands (h : ℚ) (hnn : 0 ≤ h) :
    (h < 2.5 → getBoardTypeRecommendation h = "Longboard recommended")
      ∧ (2.5 ≤ h → h < 4 → getBoardTypeRecommendation h = "Shortboard or funboard")
      ∧ (4 ≤ h → getBoardTypeRecommendation h = "Shortboard recommended") := by
  unfold getBoardTypeRecommendation
  refine ⟨?_, ?_, ?_⟩ <;> intros <;> split_ifs <;> first | rfl | linarith

/-- Witness for C4 at the concrete wave height 3 ft. -/
theorem C4_board_category_bands_witness :
    getBoardTypeRecommendation 3 = "Shortboard or funboard" :=
  (C4_board_category_bands 3 (by norm_num)).2.1 (by norm_num) (by norm_num)

/-- Claim C5 counterexample: at period 9 s the code's `getWaveQuality`
returns its second (decent mid-period) label, while the spec's claimed
bands (12 / 10 / 7) would put 9 s in the third band; the claimed band
structure `swellQualitySpecBands` disagrees with the code at 9. -/
theorem C5_counterexample :
    getWaveQuality 3 9 = "Decent swell with moderate power and rideable waves."
      ∧ swellQualitySpecBands 9 = "Short period wind swell - waves will be quick and choppy."
      ∧ getWaveQuality 3 9 ≠ swellQualitySpecBands 9 := by
  refine ⟨by decide, by decide, by decide⟩

/-- Claim C5 as amended: `getWaveQuality` ignores its height argument and
maps the period through top-down bands with inclusive lower bounds at
thresholds 12, 8 and 6 (not 12, 10 and 7 as claimed). -/
theorem C5_amended_swell_quality_bands (hgt p : ℚ) (hp : 0 ≤ p) :
    (12 ≤ p → getWaveQuality hgt p = "This is quality groundswell with good power and long rides.")
      ∧ (8 ≤ p → p < 12 → getWaveQuality hgt p = "Decent swell with moderate power and rideable waves.")
      ∧ (6 ≤ p → p < 8 → getWaveQuality hgt p = "Short period wind swell - waves will be quick and choppy.")
      ∧ (p < 6 → getWaveQuality hgt p = "Very short period - expect weak, mushy waves.") := by
  unfold getWaveQuality
  refine ⟨?_, ?_, ?_, ?_⟩ <;> intros <;> split_ifs <;> first | rfl | linarith

/-- Witness for the amended C5 at the concrete period 9 s. -/
theorem C5_amended_swell_quality_bands_witness :
    getWaveQuality 3 9 = "Decent swell with moderate power and rideable waves." :=
  (C5_amended_swell_quality_bands 3 9 (by norm_num)).2.1 (by norm_num) (by norm_num)

/-- Claim C9: the knots-to-mph conversion is `round(k * 1.15078)` and its
result differs from the exact product by at most 1 mph. -/
theorem C9_knots_to_mph (k : ℚ) (hk : 0 ≤ k) :
    knotsToMph k = jsRound (k * 1.15078)
      ∧ |(knotsToMph k : ℚ) - k * 1.15078| ≤ 1 := by
  constructor
  · rfl
  · unfold knotsToMph jsRound
    have h1 : ((⌊k * 1.15078 + 1/2⌋ : ℤ) : ℚ) ≤ k * 1.15078 + 1/2 := Int.floor_le _
    have h2 : k * 1.15078 + 1/2 < (⌊k * 1.15078 + 1/2⌋ : ℤ) + 1 := Int.lt_floor_add_one _
    rw [abs_le]
    constructor <;> linarith

/-- Witness for C9 at the concrete wind speed 8 knots. -/
theorem C9_knots_to_mph_witness :
    |((knotsToMph 8 : ℤ) : ℚ) - 8 * 1.15078| ≤ 1 :=
  (C9_knots_to_mph 8 (by norm_num)).2

/-- Rounding commutes with adding the integer 16 (a full turn in sectors). -/
theorem jsRound_add_sixteen (x : ℚ) : jsRound (x + 16) = jsRound x + 16 := by
  unfold jsRound
  have h : x + 16 + 1/2 = x + 1/2 + ((16 : ℤ) : ℚ) := by push_cast; ring
  rw [h, Int.floor_add_int]

/-- For nonnegative degrees, the compass index is unchanged by adding 360°. -/
theorem windDirIndex_mod360 (d : ℚ) (hd : 0 ≤ d) :
    windDirIndex (d + 360) = windDirIndex d := by
  unfold windDirIndex
  have h1 : (d + 360) / 22.5 = d / 22.5 + 16 := by rw [add_div]; norm_num
  rw [h1, jsRound_add_sixteen]
  have h0 : 0 ≤ jsRound (d / 22.5) := by
    unfold jsRound
    refine Int.le_floor.mpr ?_
    have : (0 : ℚ) ≤ d / 22.5 := by
      apply div_nonneg hd
      norm_num
    push_cast
    linarith
  rw [Int.tmod_eq_emod (by omega) (by norm_num), Int.tmod_eq_emod h0 (by norm_num)]
  omega

/-- Claim C8: for every degree value d ≥ 0 the 16-point compass function is
invariant under adding 360°: the label is `round(d/22.5) mod 16` into the
ordered 16-label list starting at North, so a full turn leaves it unchanged. -/
theorem C8_compass_mod360 (d : ℚ) (hd : 0 ≤ d) :
    getWindDirectionText (d + 360) = getWindDirectionText d := by
  unfold getWindDirectionText
  rw [windDirIndex_mod360 d hd]

/-- Witness for C8: the spec's own example, `compassDirection(370) ==
compassDirection(10)`. -/
theorem C8_compass_mod360_witness :
    getWindDirectionText 370 = getWindDirectionText 10 := by
  have h := C8_compass_mod360 10 (by norm_num)
  norm_num at h
  exact h

/-- Claim C1: for every well-formed conditions payload, when the external
generator call fails (throws, or returns output the schema rejects),
`generateDetailedSurfReport` still returns a complete SurfReport assembled by
the catch-block fallback path: the text is the deterministic
`createEnhancedFallbackReport` output, the metadata carries the fallback
backend/model tags, and the location, conditions copy and cache-expiry fields
are all populated — the failure is never surfaced as a hard failure of report
generation (the function is total into `SurfReport`). -/
theorem C1_generator_failure_absorbed (surfData : SurfData) (gen : GenOutcome)
    (clk : Clocks) (rand : String) (hfail : generateObjectResult gen = none) :
    (generateDetailedSurfReport surfData gen clk rand).report
        = createEnhancedFallbackReport surfData
            (jsRound (surfData.details.wind_speed_kts * 1.15078))
      ∧ (generateDetailedSurfReport surfData gen clk rand).generation_meta.backend
        = "bun-enhanced-fallback"
      ∧ (generateDetailedSurfReport surfData gen clk rand).generation_meta.model
        = "hardcoded-with-compass"
      ∧ (generateDetailedSurfReport surfData gen clk rand).location = surfData.location
      ∧ (generateDetailedSurfReport surfData gen clk rand).conditions = copyConditions surfData
      ∧ (generateDetailedSurfReport surfData gen clk rand).cached_until
        = clk.tCu + 4 * 60 * 60 * 1000 := by
  unfold generateDetailedSurfReport
  rw [hfail]
  exact ⟨rfl, rfl, rfl, rfl, rfl, rfl⟩

/-- Witness for C1 at a concrete payload and a failing generator call. -/
theorem C1_generator_failure_absorbed_witness :
    (generateDetailedSurfReport sampleData .failure ⟨0, 0, 0⟩ "ab").generation_meta.backend
      = "bun-enhanced-fallback" :=
  (C1_generator_failure_absorbed sampleData .failure ⟨0, 0, 0⟩ "ab" rfl).2.1

/-- Claim C3: whenever the generator's candidate has a first paragraph
shorter than the schema's 120-character minimum, the zod validation throws,
so the assembled report carries the fallback backend/model marks and its text
is exactly the deterministic fallback template's output for the same inputs. -/
theorem C3_short_report_uses_fallback (surfData : SurfData) (ai : AIResponse)
    (clk : Clocks) (rand : String) (hshort : ai.conditionsAnalysis.length < 120) :
    (generateDetailedSurfReport surfData (.output ai) clk rand).generation_meta.backend
        = "bun-enhanced-fallback"
      ∧ (generateDetailedSurfReport surfData (.output ai) clk rand).generation_meta.model
        = "hardcoded-with-compass"
      ∧ (generateDetailedSurfReport surfData (.output ai) clk rand).report
        = createEnhancedFallbackReport surfData
            (jsRound (surfData.details.wind_speed_kts * 1.15078)) := by
  have hns : ¬ (120 ≤ ai.conditionsAnalysis.length) := Nat.not_le.mpr hshort
  have hrej : generateObjectResult (.output ai) = none := by
    simp [generateObjectResult, schemaAccepts, hns]
  unfold generateDetailedSurfReport
  rw [hrej]
  exact ⟨rfl, rfl, rfl⟩

/-- Witness for C3 at a concrete too-short candidate. -/
theorem C3_short_report_uses_fallback_witness :
    (generateDetailedSurfReport sampleData (.output shortAI) ⟨0, 0, 0⟩ "ab").generation_meta.backend
      = "bun-enhanced-fallback" :=
  (C3_short_report_uses_fallback sampleData shortAI ⟨0, 0, 0⟩ "ab" (by decide)).1

/-- Claim C10: on the fallback path the recommended skill level is
`intermediate` exactly when the score is at least 65 and `beginner`
otherwise; in particular the fallback never recommends `advanced`. -/
theorem C10_fallback_skill_level (surfData : SurfData) (gen : GenOutcome)
    (clk : Clocks) (rand : String) (hfail : generateObjectResult gen = none) :
    (generateDetailedSurfReport surfData gen clk rand).recommendations.skill_level
        = (if surfData.score ≥ 65 then "intermediate" else "beginner")
      ∧ (generateDetailedSurfReport surfData gen clk rand).recommendations.skill_level
        ≠ "advanced" := by
  unfold generateDetailedSurfReport
  rw [hfail]
  refine ⟨rfl, ?_⟩
  by_cases h : surfData.score ≥ 65 <;> simp [h]

/-- Witness for C10 at a concrete payload (score 55 → beginner). -/
theorem C10_fallback_skill_level_witness :
    (generateDetailedSurfReport sampleData .failure ⟨0, 0, 0⟩ "ab").recommendations.skill_level
      ≠ "advanced" :=
  (C10_fallback_skill_level sampleData .failure ⟨0, 0, 0⟩ "ab" rfl).2

/-- Claim C7 counterexample: the assembly reads the clock separately for the
`timestamp` field (`new Date()`) and for the `cached_until` field
(`Date.now() + 4*60*60*1000`); if the millisecond counter advances by one
between the two reads, the cache expiry exceeds timestamp + window by 1 ms,
so "cached_until always equals timestamp + window, exactly" is false. -/
theorem C7_counterexample :
    ¬ ((generateDetailedSurfReport sampleData .failure ⟨0, 0, 1⟩ "ab").cached_until
        = (generateDetailedSurfReport sampleData .failure ⟨0, 0, 1⟩ "ab").timestamp
          + 4 * 60 * 60 * 1000) := by
  intro h
  have h1 : (generateDetailedSurfReport sampleData .failure ⟨0, 0, 1⟩ "ab").cached_until
      = 1 + 4 * 60 * 60 * 1000 := rfl
  have h2 : (generateDetailedSurfReport sampleData .failure ⟨0, 0, 1⟩ "ab").timestamp = 0 := rfl
  rw [h1, h2] at h
  omega

/-- Claim C7 as amended: `cached_until` always equals the clock value read at
its own computation site plus exactly the fixed 4-hour window (independent of
any start time, i.e. of how long generation took), and whenever the
`timestamp` read and the `cached_until` read fall in the same millisecond the
original claim holds: cached_until = timestamp + window, on both paths. -/
theorem C7_amended_cache_window (surfData : SurfData) (gen : GenOutcome)
    (clk : Clocks) (rand : String) :
    (generateDetailedSurfReport surfData gen clk rand).cached_until
        = clk.tCu + 4 * 60 * 60 * 1000
      ∧ (clk.tTs = clk.tCu →
          (generateDetailedSurfReport surfData gen clk rand).cached_until
            = (generateDetailedSurfReport surfData gen clk rand).timestamp
              + 4 * 60 * 60 * 1000) := by
  unfold generateDetailedSurfReport
  cases hg : generateObjectResult gen <;>
    exact ⟨rfl, fun h => by simp only [h]⟩

/-- Witness for the amended C7: both clock reads in the same millisecond. -/
theorem C7_amended_cache_window_witness :
    (generateDetailedSurfReport sampleData .failure ⟨0, 5, 5⟩ "ab").cached_until
      = (generateDetailedSurfReport sampleData .failure ⟨0, 5, 5⟩ "ab").timestamp
        + 4 * 60 * 60 * 1000 :=
  (C7_amended_cache_window sampleData .failure ⟨0, 5, 5⟩ "ab").2 rfl

/-- Claim C6 counterexample: in the Hono variant (`src/server.ts` 87-92) an
omitted `bestSpots` / `timingAdvice` is passed straight into the report with
no default, so the assembled fields are absent rather than holding fixed
non-empty default values. -/
theorem C6_counterexample :
    (serverRecommendations omittedAI).best_spots = none
      ∧ (serverRecommendations omittedAI).timing_advice = none :=
  ⟨rfl, rfl⟩

/-- Claim C6 as amended: the fixed non-empty defaults exist in the pure-bun
cron pipeline (`test-port.ts`), on both its primary tier and its secondary
AI-retry tier, whenever the generator omits the fields; the Hono variant
(`src/server.ts`) substitutes no default and passes the omission through. -/
theorem C6_amended_defaults (ai : OptAIResponse)
    (hb : ai.bestSpots = none) (ht : ai.timingAdvice = none) :
    (tpCronPrimaryRecommendations ai).best_spots = ["Vilano Beach", "St. Augustine Pier"]
      ∧ (tpCronPrimaryRecommendations ai).timing_advice = "Check conditions throughout the day"
      ∧ (tpCronFallbackRecommendations ai).best_spots = ["Vilano Beach", "St. Augustine Pier"]
      ∧ (tpCronFallbackRecommendations ai).timing_advice = "Check conditions regularly"
      ∧ (serverRecommendations ai).best_spots = none
      ∧ (serverRecommendations ai).timing_advice = none := by
  simp [tpCronPrimaryRecommendations, tpCronFallbackRecommendations,
    serverRecommendations, jsOrList, jsOrString, hb, ht]

/-- Witness for the amended C6 at a concrete response omitting both fields. -/
theorem C6_amended_defaults_witness :
    (tpCronPrimaryRecommendations omittedAI).best_spots
      = ["Vilano Beach", "St. Augustine Pier"] :=
  (C6_amended_defaults omittedAI rfl rfl).1

/-- The report text assembled for the C2 conditions under a failing
generator is the active (second) fallback template evaluated at wind 9 mph. -/
theorem c2_report_eval :
    (generateDetailedSurfReport c2Data .failure ⟨0, 0, 0⟩ "ab").report
      = createEnhancedFallbackReport c2Data 9 := by
  have hw : jsRound ((8 : ℚ) * 1.15078) = 9 := by
    unfold jsRound
    norm_num
  unfold generateDetailedSurfReport
  simp only [generateObjectResult]
  show createEnhancedFallbackReport c2Data
      (jsRound (c2Data.details.wind_speed_kts * 1.15078))
    = createEnhancedFallbackReport c2Data 9
  rw [show c2Data.details.wind_speed_kts = 8 from rfl, hw]

set_option maxRecDepth 400000 in
/-- Claim C2 counterexample: at the fixed conditions (wave 3.5 ft, period
9 s, wind 8 kts, tide Rising 1.2 ft, water 74 °F, score 72) with a failing
generator, the fallback report does NOT mention "shortboard or funboard":
the second, hoisting-effective definition of `createEnhancedFallbackReport`
says "Grab your shortboard ..." for every wave height ≥ 3 ft; only the
shadowed first definition produces the claimed phrase. -/
theorem C2_counterexample :
    strContains (generateDetailedSurfReport c2Data .failure ⟨0, 0, 0⟩ "ab").report
      "shortboard or funboard" = false := by
  rw [c2_report_eval]
  decide

set_option maxRecDepth 400000 in
/-- Claim C2 as amended: at the fixed conditions with a failing generator the
fallback report is exactly two paragraphs, mentions "shortboard" (via "Grab
your shortboard"), mentions no wetsuit (it recommends spring suit or
boardshorts for the 74 °F water), and ends with the encouraging closing
sentence of the score ≥ 70 bucket; the shadowed first fallback definition is
the one that would have produced "shortboard or funboard". -/
theorem C2_amended_fallback_text :
    strCountOcc (generateDetailedSurfReport c2Data .failure ⟨0, 0, 0⟩ "ab").report "\n\n" = 1
      ∧ strCountOcc (generateDetailedSurfReport c2Data .failure ⟨0, 0, 0⟩ "ab").report "\n" = 2
      ∧ strContains (generateDetailedSurfReport c2Data .failure ⟨0, 0, 0⟩ "ab").report
          "Grab your shortboard" = true
      ∧ strContains (generateDetailedSurfReport c2Data .failure ⟨0, 0, 0⟩ "ab").report
          "wetsuit" = false
      ∧ strContains (generateDetailedSurfReport c2Data .failure ⟨0, 0, 0⟩ "ab").report
          "Spring suit or boardshorts" = true
      ∧ strEndsWith (generateDetailedSurfReport c2Data .failure ⟨0, 0, 0⟩ "ab").report
          "Definitely worth the paddle out today!" = true
      ∧ strContains (createEnhancedFallbackReport_v1 c2Data 9)
          "shortboard or funboard" = true := by
  rw [c2_report_eval]
  have h25 : c2Data.details.wave_height_ft ≥ (2.5 : ℚ) := by
    rw [show c2Data.details.wave_height_ft = mkRat 7 2 from rfl, Rat.mkRat_eq_div]
    norm_num
  refine ⟨by decide, by decide, by decide, by decide, by decide, by decide, ?_⟩
  simp only [createEnhancedFallbackReport_v1]
  rw [if_pos h25]
  decide

end SurfAI
